import Mathlib

/-!
Shallow embedding of the scan-dispatch service (tool command builders,
process executor, post-processors, scan orchestrator) for checking the
specification's claims.

Python machine strings are modelled as Lean `String`; filesystem state,
subprocess outcomes and object-storage uploads are modelled explicitly
(a small record of directories/files, a sum type of run outcomes, and a
boolean upload oracle).  Builders that can raise return `Except`.
-/

/-- Single-quote character, used when building shell strings. -/
def squo : String := String.singleton (Char.ofNat 39)

/-- Double-quote character. -/
def dquo : String := String.singleton (Char.ofNat 34)

/-- `pat` is a prefix of `s` (on character lists, so that the kernel can
evaluate it). -/
def isPrefixCL : List Char → List Char → Bool
  | [], _ => true
  | _ :: _, [] => false
  | a :: as, b :: bs => a = b && isPrefixCL as bs

/-- Python `s.startswith(pre)`. -/
def strStartsWith (pre s : String) : Bool := isPrefixCL pre.toList s.toList

/-- Python `s.lower()` (ASCII). -/
def strToLower (s : String) : String := ⟨s.toList.map Char.toLower⟩

/-- Whether a character occurs in a string. -/
def strContainsChar (s : String) (c : Char) : Bool := s.toList.contains c

/-- The component of a path after its last slash. -/
def baseNameAux : List Char → List Char → List Char
  | [], acc => acc.reverse
  | c :: cs, acc => if c = '/' then baseNameAux cs [] else baseNameAux cs (c :: acc)

/-- Python `os.path.basename` for the slash-separated paths this service
builds. -/
def baseName (p : String) : String := ⟨baseNameAux p.toList []⟩

/-- Replace every occurrence of character `c` in `s` by the string `r`. -/
def replaceCharBy (c : Char) (r : String) (s : String) : String :=
  ⟨(s.toList.map (fun x => if x = c then r.toList else [x])).flatten⟩

/-- Number of (possibly overlapping) occurrences of `pat` in `s`. -/
def occurCountCL (pat : List Char) : List Char → Nat
  | [] => 0
  | c :: cs => (if isPrefixCL pat (c :: cs) then 1 else 0) + occurCountCL pat cs

/-- Number of occurrences of the pattern string in `s`. -/
def occurCount (pat s : String) : Nat := occurCountCL pat.toList s.toList

/-- A dynamically typed parameter value (Python `str | bool | list[str]`). -/
inductive PValue where
  | str (s : String)
  | bool (b : Bool)
  | list (l : List String)
deriving DecidableEq, Repr

/-- Python `str(value)` on the value variants the service passes around. -/
def pythonStr : PValue → String
  | .str s => s
  | .bool b => if b then "True" else "False"
  | .list l => "[" ++ String.intercalate ", " (l.map (fun s => squo ++ s ++ squo)) ++ "]"

/-- Python truthiness of an `Optional` parameter value. -/
def truthy : Option PValue → Bool
  | none => false
  | some (.str s) => !(s == "")
  | some (.bool b) => b
  | some (.list l) => !l.isEmpty

/-- `app.models.ToolParameter` (the `description` field plays no role in logic). -/
structure ToolParameter where
  flag : String
  value : Option PValue := none
  requiresValue : Bool := false
deriving DecidableEq, Repr

/-- `app.models.ToolExecutionRequest`. -/
structure ToolExecutionRequest where
  name : String
  parameters : List ToolParameter := []
deriving DecidableEq, Repr

/-- `app.models.ScanRequest` (already validated by the intake boundary). -/
structure ScanRequest where
  target : String
  tools : List ToolExecutionRequest
  scan_id : String
deriving DecidableEq, Repr

/-- `app.models.ToolOutput`. -/
structure ToolOutput where
  tool_name : String
  command : List String
  return_code : Int
  stdout : String
  stderr : String
  output_file_paths : List String := []
  success : Bool
deriving DecidableEq, Repr

/-- `app.models.ScanResponse`. -/
structure ScanResponse where
  scan_id : String
  target : String
  results : List ToolOutput
  message : String
  status : String
deriving DecidableEq, Repr

/-- Sequential emission of per-parameter argument fragments (the Python
`for param in parameters: cmd.extend(...)` loops). -/
def concatBy (f : α → List β) : List α → List β
  | [] => []
  | a :: l => f a ++ concatBy f l

/-- The default argument-emission rule shared by most builders:
skip empty flags; `requiresValue` with a non-null value emits
`[flag, str(value)]`; a flag without required value is emitted alone when
its value is truthy. -/
def stdEmit (p : ToolParameter) : List String :=
  if p.flag = "" then []
  else if p.requiresValue then
    match p.value with
    | some v => [p.flag, pythonStr v]
    | none => []
  else if truthy p.value then [p.flag] else []

/-- Like `stdEmit` but first drops parameters whose flag is in `reserved`
(backend-managed flags the user may not override). -/
def reservedEmit (reserved : List String) (p : ToolParameter) : List String :=
  if p.flag = "" then []
  else if reserved.contains p.flag then []
  else stdEmit p

/-- Root of all per-tool output directories, `/app/outputs/scan_id/tool_name`. -/
def outputDirOf (scan_id tool_name : String) : String :=
  "/app/outputs/" ++ scan_id ++ "/" ++ tool_name

/-- `build_nuclei_command`: comma-joins list values for ordinary flags and
expands `-t` template parameters into repeated `-t` flags. -/
def nucleiEmit (p : ToolParameter) : List String :=
  if p.flag = "" then []
  else if p.requiresValue then
    match p.value with
    | some (.list l) => [p.flag, String.intercalate "," l]
    | some v => [p.flag, pythonStr v]
    | none => []
  else if truthy p.value then [p.flag] else []

/-- Template paths collected from user `-t` parameters (list values are
spliced, scalar truthy values are stringified and appended). -/
def nucleiTemplatePaths (parameters : List ToolParameter) : List String :=
  parameters.foldl
    (fun acc p =>
      if p.flag = "-t" then
        match p.value with
        | some (.list l) => acc ++ l
        | some v => if truthy (some v) then acc ++ [pythonStr v] else acc
        | none => acc
      else acc)
    []

/-- `app.tool_runner.build_nuclei_command`. -/
def build_nuclei_command (target : String) (parameters : List ToolParameter)
    (scan_id tool_name : String) : List String :=
  let output_dir := outputDirOf scan_id tool_name
  let json_output_file := output_dir ++ "/nuclei_results.json"
  let base := ["nuclei", "-u", target, "-no-color", "-stats", "-jsonl", "-o", json_output_file]
  let tpaths := nucleiTemplatePaths parameters
  let other := parameters.filter (fun p => p.flag ≠ "-t")
  let templ := if tpaths.isEmpty then ["-t", "/root/nuclei-templates"]
               else concatBy (fun p => ["-t", p]) tpaths
  base ++ templ ++ concatBy nucleiEmit other

/-- `app.tool_runner.build_nikto_command`. -/
def build_nikto_command (target : String) (parameters : List ToolParameter)
    (scan_id tool_name : String) : List String :=
  let output_dir := outputDirOf scan_id tool_name
  let json_output_file := output_dir ++ "/nikto_results.json"
  ["perl", "/opt/nikto/program/nikto.pl", "-h", target, "-Format", "json",
   "-o", json_output_file]
  ++ concatBy (reservedEmit ["-h", "-o", "-Format"]) parameters

/-- `app.tool_runner.build_sqlmap_command` (note the trailing slash on the
output directory, exactly as in the source). -/
def build_sqlmap_command (target : String) (parameters : List ToolParameter)
    (scan_id tool_name : String) : List String :=
  let output_dir := outputDirOf scan_id tool_name ++ "/"
  ["sqlmap", "-u", target, "--batch", "--output-dir", output_dir]
  ++ concatBy (reservedEmit ["-u", "--output-dir", "--batch"]) parameters

/-- `app.tool_runner.build_trivy_command`: requires an `imageName`
parameter with a truthy value, raising `ValueError` otherwise (modelled as
`Except.error`). The last `imageName` parameter wins; all `imageName`
parameters are removed from ordinary emission. -/
def build_trivy_command (target : String) (parameters : List ToolParameter)
    (scan_id tool_name : String) : Except String (List String) :=
  let output_dir := outputDirOf scan_id tool_name
  let json_output_file := output_dir ++ "/trivy_results.json"
  let image := parameters.foldl
    (fun acc p => if p.flag = "imageName" then p.value else acc) none
  let other := parameters.filter (fun p => p.flag ≠ "imageName")
  if truthy image then
    match image with
    | some v =>
        .ok (["trivy", "image", "--format", "json", "-o", json_output_file, pythonStr v]
             ++ concatBy stdEmit other)
    | none => .error ("Trivy scan requires " ++ squo ++ "imageName" ++ squo ++ " parameter.")
  else .error ("Trivy scan requires " ++ squo ++ "imageName" ++ squo ++ " parameter.")

/-- `app.tool_runner.build_lynis_command`. -/
def build_lynis_command (target : String) (parameters : List ToolParameter)
    (scan_id tool_name : String) : List String :=
  let output_dir := outputDirOf scan_id tool_name
  ["lynis", "audit", "system", "--cronjob", "--logfile", output_dir ++ "/lynis.log",
   "--report-file", output_dir ++ "/lynis-report.dat"]
  ++ concatBy stdEmit parameters

/-- `app.tool_runner.build_wpscan_command`: prefixes the target with
`http://` when no protocol is present and renames the legacy
`--random-agent` flag. -/
def wpscanEmit (p : ToolParameter) : List String :=
  if p.flag = "" then []
  else
    let flag := if p.flag = "--random-agent" then "--random-user-agent" else p.flag
    if p.requiresValue then
      match p.value with
      | some v => [flag, pythonStr v]
      | none => []
    else if truthy p.value then [flag] else []

/-- `app.tool_runner.build_wpscan_command`. -/
def build_wpscan_command (target : String) (parameters : List ToolParameter)
    (scan_id tool_name : String) : List String :=
  let output_dir := outputDirOf scan_id tool_name
  let json_output_file := output_dir ++ "/wpscan_results.json"
  let lower := strToLower target
  let checked_target :=
    if strStartsWith "http://" lower || strStartsWith "https://" lower then target
    else "http://" ++ target
  ["wpscan", "--url", checked_target, "--format", "json",
   "--output", json_output_file, "--no-update"]
  ++ concatBy wpscanEmit parameters

/-- Outcome oracle for `git clone --depth 1 <url> <dir>`: whether the clone
of a given URL succeeds, and the (stripped) stderr text when it fails. -/
structure GitEnv where
  ok : String → Bool
  err : String → String

/-- The synthetic "print error to stderr and exit 1" command the builders
return instead of raising. -/
def syntheticFailCommand (msg : String) : List String :=
  ["sh", "-c", "echo " ++ squo ++ msg ++ squo ++ " >&2 && exit 1"]

/-- `app.tool_runner._clone_repo`: shallow-clones into
`output_dir/source`, returning the source directory on success and the
synthetic failing command on clone failure. -/
def cloneRepo (env : GitEnv) (repo_url scan_id tool_name : String) :
    Option String × Option (List String) :=
  let source_dir := outputDirOf scan_id tool_name ++ "/source"
  if env.ok repo_url then (some source_dir, none)
  else (none, some (syntheticFailCommand ("Failed to clone repository: " ++ env.err repo_url)))

/-- First parameter with the given flag (Python `next((p for p in parameters
if p.flag == f), None)`). -/
def findParam (f : String) (parameters : List ToolParameter) : Option ToolParameter :=
  parameters.find? (fun p => p.flag = f)

/-- Whether the distinguished parameter is present with a string value. -/
def hasStringParam (f : String) (parameters : List ToolParameter) : Bool :=
  match findParam f parameters with
  | some p => match p.value with
    | some (.str _) => true
    | _ => false
  | none => false

/-- `build_semgrep_command` emission: `gitURL` is skipped, empty flags are
skipped, otherwise the default rule applies. -/
def semgrepEmit (p : ToolParameter) : List String :=
  if p.flag = "gitURL" then [] else stdEmit p

/-- `app.tool_runner.build_semgrep_command`. -/
def build_semgrep_command (env : GitEnv) (target : String)
    (parameters : List ToolParameter) (scan_id tool_name : String) :
    List String :=
  match findParam "gitURL" parameters with
  | some p =>
    match p.value with
    | some (.str repo_url) =>
      let output_dir := outputDirOf scan_id tool_name
      let source_code_dir := output_dir ++ "/source"
      let json_report_file := output_dir ++ "/semgrep_results.json"
      if env.ok repo_url then
        ["semgrep", "scan", "--json", "-o", json_report_file, source_code_dir]
        ++ (if parameters.any (fun q => q.flag = "--config") then []
            else ["--config", "auto"])
        ++ concatBy semgrepEmit parameters
      else
        syntheticFailCommand ("Failed to clone repository: " ++ env.err repo_url)
    | _ => syntheticFailCommand ("Semgrep scan requires a " ++ squo ++ "gitURL" ++ squo
             ++ " parameter with a valid git repository URL.")
  | none => syntheticFailCommand ("Semgrep scan requires a " ++ squo ++ "gitURL" ++ squo
             ++ " parameter with a valid git repository URL.")

/-- `build_trufflehog_command` emission: `repoURL` and the deprecated
`--regex`/`--entropy` flags are skipped, and only boolean-style flags
(`requiresValue` false with a truthy value) are ever emitted. -/
def trufflehogEmit (p : ToolParameter) : List String :=
  if p.flag = "repoURL" ∨ p.flag = "--regex" ∨ p.flag = "--entropy" then []
  else if !p.requiresValue && truthy p.value then [p.flag] else []

/-- `app.tool_runner.build_trufflehog_command`. -/
def build_trufflehog_command (env : GitEnv) (target : String)
    (parameters : List ToolParameter) (scan_id tool_name : String) :
    List String :=
  match findParam "repoURL" parameters with
  | some p =>
    match p.value with
    | some (.str repo_url) =>
      match cloneRepo env repo_url scan_id tool_name with
      | (_, some error_cmd) => error_cmd
      | (some source_dir, none) =>
          ["trufflehog", "filesystem", source_dir, "--json"]
          ++ concatBy trufflehogEmit parameters
      | (none, none) => []
    | _ => syntheticFailCommand ("Trufflehog scan requires a " ++ squo ++ "repoURL" ++ squo
             ++ " parameter with a valid Git repository URL.")
  | none => syntheticFailCommand ("Trufflehog scan requires a " ++ squo ++ "repoURL" ++ squo
             ++ " parameter with a valid Git repository URL.")

/-- `build_gitleaks_command`/`build_yara_command` emission: `repoURL` is
skipped; no empty-flag guard; otherwise the default rule. -/
def gitleaksEmit (p : ToolParameter) : List String :=
  if p.flag = "repoURL" then []
  else if p.requiresValue then
    match p.value with
    | some v => [p.flag, pythonStr v]
    | none => []
  else if truthy p.value then [p.flag] else []

/-- `app.tool_runner.build_gitleaks_command`. -/
def build_gitleaks_command (env : GitEnv) (target : String)
    (parameters : List ToolParameter) (scan_id tool_name : String) :
    List String :=
  match findParam "repoURL" parameters with
  | some p =>
    match p.value with
    | some (.str repo_url) =>
      match cloneRepo env repo_url scan_id tool_name with
      | (_, some error_cmd) => error_cmd
      | (some clone_dir, none) =>
          let output_dir := outputDirOf scan_id tool_name
          ["gitleaks", "detect", "--source", clone_dir,
           "-r", output_dir ++ "/gitleaks_results.json", "-f", "json"]
          ++ concatBy gitleaksEmit parameters
      | (none, none) => []
    | _ => syntheticFailCommand "Gitleaks scan requires a repoURL parameter."
  | none => syntheticFailCommand "Gitleaks scan requires a repoURL parameter."

/-- `app.tool_runner.build_yara_command`. -/
def build_yara_command (env : GitEnv) (target : String)
    (parameters : List ToolParameter) (scan_id tool_name : String) :
    List String :=
  match findParam "repoURL" parameters with
  | some p =>
    match p.value with
    | some (.str repo_url) =>
      match cloneRepo env repo_url scan_id tool_name with
      | (_, some error_cmd) => error_cmd
      | (some source_dir, none) =>
          ["yara", "-r", "/opt/yara-rules/index.yar", source_dir]
          ++ concatBy gitleaksEmit parameters
      | (none, none) => []
    | _ => syntheticFailCommand "Yara scan requires a repoURL parameter"
  | none => syntheticFailCommand "Yara scan requires a repoURL parameter"

/-- Characters `shlex.quote` treats as safe (ASCII word characters plus
at-sign, percent, plus, equals, colon, comma, dot, slash and dash);
anything else forces single-quoting. -/
def shlexSafeChar (c : Char) : Bool :=
  c.isAlphanum || c = '_' || c = '@' || c = '%' || c = '+' || c = '=' ||
  c = ':' || c = ',' || c = '.' || c = '/' || c = '-'

/-- Python `shlex.quote`. -/
def shlexQuote (s : String) : String :=
  if s = "" then squo ++ squo
  else if s.toList.all shlexSafeChar then s
  else squo ++ replaceCharBy (Char.ofNat 39) (squo ++ dquo ++ squo ++ dquo ++ squo) s ++ squo

/-- Protocol normalisation in `build_httpx_command` (case-sensitive, unlike
wpscan's). -/
def normalizedHttpxTarget (target : String) : String :=
  if strStartsWith "http://" target || strStartsWith "https://" target then target
  else "http://" ++ target

/-- The inner (pre-`sh -c`) httpx argument list: user parameters followed by
the protocol-normalised target. -/
def httpxInner (target : String) (parameters : List ToolParameter) : List String :=
  ["httpx"] ++ concatBy stdEmit parameters ++ [normalizedHttpxTarget target]

/-- `app.tool_runner.build_httpx_command`: wraps the inner command as
`sh -c "echo <quoted target> | <inner>"`. -/
def build_httpx_command (target : String) (parameters : List ToolParameter)
    (scan_id tool_name : String) : List String :=
  ["sh", "-c",
   "echo " ++ shlexQuote target ++ " | " ++ String.intercalate " " (httpxInner target parameters)]

/-- Tools with a registered (tool-specific) post-processor, in registration
order (`app.post_processing._post_processor_registry`). -/
def registeredPostProcessors : List String :=
  ["nuclei", "nikto", "sqlmap", "trivy", "lynis", "wpscan", "semgrep",
   "trufflehog", "gitleaks", "yara", "httpx"]

/-- A post-processor invocation performed by the executor. -/
inductive ProcCall where
  | specific (tool_name : String)
  | defaultProc
deriving DecidableEq, Repr

/-- `app.post_processing.get_post_processor`: the registered processor when
one exists (case-insensitive key), the default processor otherwise. -/
def getPostProcessorCall (tool_name : String) : ProcCall :=
  if registeredPostProcessors.contains (strToLower tool_name) then
    .specific (strToLower tool_name)
  else .defaultProc

/-- Outcome of running the child process (`subprocess.run`): a normal exit
with captured streams, a timeout, or an unexpected launch failure whose
exception text is `msg`. -/
inductive RunOutcome where
  | completed (returnCode : Int) (stdout stderr : String)
  | timedOut
  | launchFailure (msg : String)
deriving DecidableEq, Repr

/-- Python `s[-2000:]`: the final 2000 characters of a string. -/
def lastChars (n : Nat) (s : String) : String :=
  ⟨s.toList.drop (s.toList.length - n)⟩

/-- `app.tool_runner.ToolRunner.execute_command`, modelled over an explicit
run outcome and the list of extra files the tool wrote into its output
directory (beyond the two captured streams).  Returns the `ToolOutput`
together with the list of post-processor invocations the run performed. -/
def execute_command (outcome : RunOutcome) (extraFiles : List String)
    (command : List String) (scan_id tool_name : String)
    (timeout : Nat := 3600) : ToolOutput × List ProcCall :=
  let output_dir := outputDirOf scan_id tool_name
  let stdout_file := output_dir ++ "/output.stdout"
  let stderr_file := output_dir ++ "/output.stderr"
  match outcome with
  | .completed returnCode stdout stderr =>
      let output_files := [stdout_file, stderr_file]
        ++ extraFiles.filter (fun f => f ≠ stdout_file ∧ f ≠ stderr_file)
      let success : Bool := returnCode == 0
      let calls := if success then [getPostProcessorCall tool_name] else [ProcCall.defaultProc]
      ({ tool_name := tool_name, command := command, return_code := returnCode,
         stdout := lastChars 2000 stdout, stderr := lastChars 2000 stderr,
         output_file_paths := output_files, success := success }, calls)
  | .timedOut =>
      let error_msg := "Command timed out after " ++ toString timeout ++ " seconds."
      ({ tool_name := tool_name, command := command, return_code := -1,
         stdout := "", stderr := error_msg,
         output_file_paths := [stderr_file], success := false }, [ProcCall.defaultProc])
  | .launchFailure msg =>
      ({ tool_name := tool_name, command := command, return_code := -1,
         stdout := "", stderr := "An unexpected error occurred: " ++ msg,
         output_file_paths := [], success := false }, [])

/-- The synthetic failed `ToolOutput` the orchestrator records when a
tool's builder or executor raises (`tasks.execute_scan_logic`). -/
def syntheticToolOutput (tool_name err : String) : ToolOutput :=
  { tool_name := tool_name, command := [], return_code := -1, stdout := "",
    stderr := "Worker error running " ++ squo ++ tool_name ++ squo ++ ": " ++ err,
    output_file_paths := [], success := false }

/-- One iteration of the orchestrator's per-tool loop: the oracle `runTool`
stands for builder lookup, command construction and execution, and raises
by returning `Except.error`; the orchestrator converts that into the
synthetic failed output.  (Status-sink callbacks are best-effort and
modelled as non-raising.) -/
def processTool (runTool : ToolExecutionRequest → Except String ToolOutput)
    (req : ToolExecutionRequest) : ToolOutput :=
  match runTool req with
  | .ok r => r
  | .error e => syntheticToolOutput req.name e

/-- Aggregate scan status from the per-tool results
(`tasks.execute_scan_logic`). -/
def scanStatus (results : List ToolOutput) : String :=
  if results.all (fun r => r.success) then "success"
  else if results.any (fun r => r.success) then "partial_failure"
  else "failed"

/-- The orchestrator's result-accumulation loop, written as the Python
`for` loop that appends one output per requested tool. -/
def scanLoop (runTool : ToolExecutionRequest → Except String ToolOutput)
    (tools : List ToolExecutionRequest) (acc : List ToolOutput) : List ToolOutput :=
  match tools with
  | [] => acc
  | t :: rest => scanLoop runTool rest (acc ++ [processTool runTool t])

/-- `tasks.execute_scan_logic` (persisting the response to disk is the
caller-visible result; the written JSON document is this value). -/
def execute_scan_logic (runTool : ToolExecutionRequest → Except String ToolOutput)
    (sr : ScanRequest) : ScanResponse :=
  let results := scanLoop runTool sr.tools []
  { scan_id := sr.scan_id, target := sr.target, results := results,
    message := "Scan completed by worker.", status := scanStatus results }

/-- The accumulation loop is `map` over the requested tools. -/
theorem scanLoop_eq_map (runTool : ToolExecutionRequest → Except String ToolOutput)
    (tools : List ToolExecutionRequest) (acc : List ToolOutput) :
    scanLoop runTool tools acc = acc ++ tools.map (processTool runTool) := by
  induction tools generalizing acc with
  | nil => simp [scanLoop]
  | cons t rest ih => simp [scanLoop, ih]

/-- Local filesystem state: existing directories and existing files, each
listed in enumeration order (`os.listdir` order is modelled by list order). -/
structure FS where
  dirs : List String
  files : List String
deriving DecidableEq, Repr

/-- File existence (`os.path.exists` on a file path). -/
def FS.hasFile (fs : FS) (f : String) : Bool := fs.files.contains f

/-- Creating (or overwriting) a file inside the output directory. -/
def FS.addFile (fs : FS) (f : String) : FS :=
  if fs.files.contains f then fs else { fs with files := fs.files ++ [f] }

/-- `app.gcs_utils.delete_local_directory`: removes the directory tree when
the directory exists, otherwise does nothing (and never raises). -/
def delete_local_directory (directory_path : String) (fs : FS) : FS :=
  if fs.dirs.contains directory_path then
    { dirs := fs.dirs.filter
        (fun x => !(x = directory_path || strStartsWith (directory_path ++ "/") x)),
      files := fs.files.filter (fun f => !(strStartsWith (directory_path ++ "/") f)) }
  else fs

/-- `entry` is a direct child path of directory `d`. -/
def isDirectChild (d entry : String) : Bool :=
  strStartsWith (d ++ "/") entry && !(strContainsChar (entry.drop (d.length + 1)) '/')

/-- The first subdirectory found under `d` (the sqlmap processor's
"first directory entry" heuristic; enumeration order is the `dirs` list
order). -/
def firstSubdir (fs : FS) (d : String) : Option String :=
  fs.dirs.find? (fun x => isDirectChild d x)

/-- GCS destination prefix `data/scan_id/vulnr/tool_name/`. -/
def gcsBase (scan_id tool_name : String) : String :=
  "data/" ++ scan_id ++ "/vulnr/" ++ tool_name ++ "/"

/-- Result of one post-processor invocation: the recorded upload results
(real upload outcomes, plus `false` entries recorded for expected files
that were absent), whether cleanup (`delete_local_directory`) was invoked,
and the filesystem afterwards. -/
structure ProcStep where
  attempts : List Bool
  cleanupCalled : Bool
  fs : FS
deriving DecidableEq, Repr

/-- `app.post_processing.default_post_processor`: uploads every listed file
that still exists to the review path and deletes the directory only when
all uploads succeeded. -/
def default_post_processor (upload : String → String → Bool)
    (scan_id tool_name output_dir : String) (output_files : List String)
    (fs : FS) : ProcStep :=
  let base := gcsBase scan_id tool_name
  let attempts := output_files.filterMap (fun f =>
    if fs.hasFile f then
      some (upload f (base ++ "review/" ++ baseName f))
    else none)
  if attempts.all id then
    { attempts := attempts, cleanupCalled := true,
      fs := delete_local_directory output_dir fs }
  else { attempts := attempts, cleanupCalled := false, fs := fs }

/-- `app.post_processing.post_process_nuclei`: writes a compiled
LLM digest, then attempts three uploads unconditionally. -/
def post_process_nuclei (upload : String → String → Bool)
    (scan_id tool_name output_dir : String) (output_files : List String)
    (fs : FS) : ProcStep :=
  let base := gcsBase scan_id tool_name
  let stdout_file := output_dir ++ "/output.stdout"
  let stderr_file := output_dir ++ "/output.stderr"
  let compiled_llm_file := output_dir ++ "/compiled_llm_input.txt"
  let fs1 := fs.addFile compiled_llm_file
  let attempts :=
    [upload compiled_llm_file (base ++ "llm/compiled_llm_input.txt"),
     upload stdout_file (base ++ "review/output.stdout"),
     upload stderr_file (base ++ "review/output.stderr")]
  if attempts.all id then
    { attempts := attempts, cleanupCalled := true,
      fs := delete_local_directory output_dir fs1 }
  else { attempts := attempts, cleanupCalled := false, fs := fs1 }

/-- `app.post_processing.post_process_nikto`: a missing stdout records a
failure; a missing JSON report is skipped silently. -/
def post_process_nikto (upload : String → String → Bool)
    (scan_id tool_name output_dir : String) (output_files : List String)
    (fs : FS) : ProcStep :=
  let base := gcsBase scan_id tool_name
  let stdout_file := output_dir ++ "/output.stdout"
  let json_file := output_dir ++ "/nikto_results.json"
  let attempts :=
    (if fs.hasFile stdout_file then [upload stdout_file (base ++ "llm/nikto_llm_input.txt")]
     else [false])
    ++ (if fs.hasFile stdout_file then [upload stdout_file (base ++ "review/output.stdout")]
        else [])
    ++ (if fs.hasFile json_file then [upload json_file (base ++ "review/nikto_results.json")]
        else [])
  if attempts.all id then
    { attempts := attempts, cleanupCalled := true,
      fs := delete_local_directory output_dir fs }
  else { attempts := attempts, cleanupCalled := false, fs := fs }

/-- `app.post_processing.post_process_sqlmap`: locates the dynamically
named result subdirectory; when none exists it uploads raw stdout under a
`_FAILURE` suffix (ignoring the result) and force-deletes the directory. -/
def post_process_sqlmap (upload : String → String → Bool)
    (scan_id tool_name output_dir : String) (output_files : List String)
    (fs : FS) : ProcStep :=
  let base := gcsBase scan_id tool_name
  let stdout_file := output_dir ++ "/output.stdout"
  match firstSubdir fs output_dir with
  | none =>
      let attempts :=
        if fs.hasFile stdout_file then
          [upload stdout_file (base ++ "review/output.stdout_FAILURE")]
        else []
      { attempts := attempts, cleanupCalled := true,
        fs := delete_local_directory output_dir fs }
  | some sqlmap_result_dir =>
      let log_file := sqlmap_result_dir ++ "/log"
      let attempts :=
        (if fs.hasFile log_file then [upload log_file (base ++ "llm/sqlmap_log.txt")]
         else [false])
        ++ (if fs.hasFile stdout_file then [upload stdout_file (base ++ "review/output.stdout")]
            else [])
        ++ (if fs.hasFile log_file then [upload log_file (base ++ "review/log.txt")]
            else [])
      if attempts.all id then
        { attempts := attempts, cleanupCalled := true,
          fs := delete_local_directory output_dir fs }
      else { attempts := attempts, cleanupCalled := false, fs := fs }

/-- `app.post_processing.post_process_trivy`: single review upload of the
JSON report; a missing report means no upload and no cleanup. -/
def post_process_trivy (upload : String → String → Bool)
    (scan_id tool_name output_dir : String) (output_files : List String)
    (fs : FS) : ProcStep :=
  let base := gcsBase scan_id tool_name
  let json_file := output_dir ++ "/trivy_results.json"
  let attempts :=
    [if fs.hasFile json_file then upload json_file (base ++ "review/trivy_results.json")
     else false]
  if attempts.all id then
    { attempts := attempts, cleanupCalled := true,
      fs := delete_local_directory output_dir fs }
  else { attempts := attempts, cleanupCalled := false, fs := fs }

/-- `app.post_processing.post_process_lynis`. -/
def post_process_lynis (upload : String → String → Bool)
    (scan_id tool_name output_dir : String) (output_files : List String)
    (fs : FS) : ProcStep :=
  let base := gcsBase scan_id tool_name
  let stdout_file := output_dir ++ "/output.stdout"
  let attempts :=
    [if fs.hasFile stdout_file then
       upload stdout_file (base ++ "review/lynis_audit_output.txt")
     else false]
  if attempts.all id then
    { attempts := attempts, cleanupCalled := true,
      fs := delete_local_directory output_dir fs }
  else { attempts := attempts, cleanupCalled := false, fs := fs }

/-- Shared shape of the wpscan/semgrep/trufflehog/gitleaks/yara processors:
one key artifact uploaded to both the llm and review paths, a missing
artifact recorded as a single failure. -/
def dualUploadStep (upload : String → String → Bool) (output_dir : String)
    (key_file llm_dest review_dest : String) (fs : FS) : ProcStep :=
  let attempts :=
    if fs.hasFile key_file then
      [upload key_file llm_dest, upload key_file review_dest]
    else [false]
  if attempts.all id then
    { attempts := attempts, cleanupCalled := true,
      fs := delete_local_directory output_dir fs }
  else { attempts := attempts, cleanupCalled := false, fs := fs }

/-- `app.post_processing.post_process_wpscan`. -/
def post_process_wpscan (upload : String → String → Bool)
    (scan_id tool_name output_dir : String) (output_files : List String)
    (fs : FS) : ProcStep :=
  let base := gcsBase scan_id tool_name
  dualUploadStep upload output_dir (output_dir ++ "/wpscan_results.json")
    (base ++ "llm/wpscan_results.json") (base ++ "review/wpscan_results.json") fs

/-- `app.post_processing.post_process_semgrep`. -/
def post_process_semgrep (upload : String → String → Bool)
    (scan_id tool_name output_dir : String) (output_files : List String)
    (fs : FS) : ProcStep :=
  let base := gcsBase scan_id tool_name
  dualUploadStep upload output_dir (output_dir ++ "/output.stderr")
    (base ++ "llm/semgrep_scan_output.txt") (base ++ "review/output.stderr") fs

/-- `app.post_processing.post_process_trufflehog`. -/
def post_process_trufflehog (upload : String → String → Bool)
    (scan_id tool_name output_dir : String) (output_files : List String)
    (fs : FS) : ProcStep :=
  let base := gcsBase scan_id tool_name
  dualUploadStep upload output_dir (output_dir ++ "/output.stdout")
    (base ++ "llm/trufflehog_scan_output.txt") (base ++ "review/output.stdout") fs

/-- `app.post_processing.post_process_gitleaks`. -/
def post_process_gitleaks (upload : String → String → Bool)
    (scan_id tool_name output_dir : String) (output_files : List String)
    (fs : FS) : ProcStep :=
  let base := gcsBase scan_id tool_name
  dualUploadStep upload output_dir (output_dir ++ "/gitleaks_results.json")
    (base ++ "llm/gitleaks_results.json") (base ++ "review/gitleaks_results.json") fs

/-- `app.post_processing.post_process_yara`. -/
def post_process_yara (upload : String → String → Bool)
    (scan_id tool_name output_dir : String) (output_files : List String)
    (fs : FS) : ProcStep :=
  let base := gcsBase scan_id tool_name
  dualUploadStep upload output_dir (output_dir ++ "/output.stderr")
    (base ++ "llm/yara_scan_output.txt") (base ++ "review/output.stderr") fs

/-- `app.post_processing.post_process_httpx`: summarises stdout to its first
20 lines (or uses the whole file when shorter), uploads the summary for the
LLM and the full stdout for review.  `lineCount` is the line count of a
file's content (file reads are modelled as total). -/
def post_process_httpx (upload : String → String → Bool)
    (lineCount : String → Nat)
    (scan_id tool_name output_dir : String) (output_files : List String)
    (fs : FS) : ProcStep :=
  let base := gcsBase scan_id tool_name
  let stdout_file := output_dir ++ "/output.stdout"
  let summary_file := output_dir ++ "/httpx_summary.txt"
  if fs.hasFile stdout_file then
    let fs1 := if 20 ≤ lineCount stdout_file then fs.addFile summary_file else fs
    let llm_success :=
      if 20 ≤ lineCount stdout_file then upload summary_file (base ++ "llm/httpx_summary.txt")
      else upload stdout_file (base ++ "llm/httpx_summary.txt")
    let attempts := [llm_success, upload stdout_file (base ++ "review/output.stdout")]
    if attempts.all id then
      { attempts := attempts, cleanupCalled := true,
        fs := delete_local_directory output_dir fs1 }
    else { attempts := attempts, cleanupCalled := false, fs := fs1 }
  else
    { attempts := [false], cleanupCalled := false, fs := fs }

/-- Builders, uniformly typed for the registry (`ToolRunner._tool_registry`):
clone oracle, target, parameters, scan id, tool name; builders that raise
return `Except.error`. -/
def BuilderFun : Type :=
  GitEnv → String → List ToolParameter → String → String → Except String (List String)

/-- `ToolRunner._tool_registry` after import-time registration, in
registration order. -/
def toolRegistry : List (String × BuilderFun) :=
  [("nuclei", fun _ t ps sid tn => .ok (build_nuclei_command t ps sid tn)),
   ("nikto", fun _ t ps sid tn => .ok (build_nikto_command t ps sid tn)),
   ("sqlmap", fun _ t ps sid tn => .ok (build_sqlmap_command t ps sid tn)),
   ("trivy", fun _ t ps sid tn => build_trivy_command t ps sid tn),
   ("lynis", fun _ t ps sid tn => .ok (build_lynis_command t ps sid tn)),
   ("wpscan", fun _ t ps sid tn => .ok (build_wpscan_command t ps sid tn)),
   ("semgrep", fun env t ps sid tn => .ok (build_semgrep_command env t ps sid tn)),
   ("trufflehog", fun env t ps sid tn => .ok (build_trufflehog_command env t ps sid tn)),
   ("gitleaks", fun env t ps sid tn => .ok (build_gitleaks_command env t ps sid tn)),
   ("yara", fun env t ps sid tn => .ok (build_yara_command env t ps sid tn)),
   ("httpx", fun _ t ps sid tn => .ok (build_httpx_command t ps sid tn))]

/-- The all-or-nothing cleanup property of one post-processor invocation:
cleanup ran exactly when every recorded upload result was a success. -/
def cleanupAllOrNothing (r : ProcStep) : Prop :=
  r.cleanupCalled = r.attempts.all id

/-- Instance of `decide` for `cleanupAllOrNothing`. -/
instance (r : ProcStep) : Decidable (cleanupAllOrNothing r) :=
  inferInstanceAs (Decidable (_ = _))

/-- C2: for every scan request, if builder lookup, command construction or
execution for one tool raises, the orchestrator records the synthetic
failed `ToolOutput` (return code -1, success false, empty command and file
list) for that tool and continues; the final result sequence has exactly
one `ToolOutput` per requested tool, in request order. -/
theorem c2_orchestrator_partial_failure
    (runTool : ToolExecutionRequest → Except String ToolOutput) (sr : ScanRequest) :
    (execute_scan_logic runTool sr).results.length = sr.tools.length ∧
    (∀ i : Nat, (execute_scan_logic runTool sr).results[i]? =
      (sr.tools[i]?).map (processTool runTool)) ∧
    (∀ req e, runTool req = Except.error e →
      processTool runTool req = syntheticToolOutput req.name e) ∧
    (∀ name e, (syntheticToolOutput name e).return_code = -1 ∧
      (syntheticToolOutput name e).success = false ∧
      (syntheticToolOutput name e).command = [] ∧
      (syntheticToolOutput name e).output_file_paths = []) := by
  have h : (execute_scan_logic runTool sr).results = sr.tools.map (processTool runTool) := by
    simp [execute_scan_logic, scanLoop_eq_map]
  refine ⟨by simp [h], fun i => by simp [h], fun req e he => by simp [processTool, he],
    fun name e => ⟨rfl, rfl, rfl, rfl⟩⟩

/-- Concrete run-tool oracle for the witnesses: the `nikto` step raises,
every other tool returns a fixed successful output. -/
def wRunTool : ToolExecutionRequest → Except String ToolOutput :=
  fun req =>
    if req.name = "nikto" then .error "boom"
    else .ok { tool_name := req.name, command := [req.name], return_code := 0,
               stdout := "", stderr := "", output_file_paths := [], success := true }

/-- Concrete scan request: the first tool succeeds, the second raises. -/
def wScanRequest : ScanRequest :=
  { target := "example.com",
    tools := [{ name := "nuclei" }, { name := "nikto" }], scan_id := "s1" }

/-- Witness for C2 at a concrete two-tool request whose second tool raises. -/
theorem c2_orchestrator_partial_failure_witness :
    (execute_scan_logic wRunTool wScanRequest).results.length = 2 ∧
    (execute_scan_logic wRunTool wScanRequest).results[1]? =
      some (syntheticToolOutput "nikto" "boom") := by
  have h := c2_orchestrator_partial_failure wRunTool wScanRequest
  refine ⟨by simpa using h.1, ?_⟩
  have h1 := h.2.1 1
  have h2 := h.2.2.1 { name := "nikto" } "boom" (by rfl)
  rw [h1]
  simp [wScanRequest, h2]

/-- C10: a valid scan request with an empty tools list yields a response
with an empty results sequence and status "success", not "failed". -/
theorem c10_empty_tools_success
    (runTool : ToolExecutionRequest → Except String ToolOutput)
    (sr : ScanRequest) (h : sr.tools = []) :
    (execute_scan_logic runTool sr).results = [] ∧
    (execute_scan_logic runTool sr).status = "success" := by
  constructor <;> simp [execute_scan_logic, h, scanLoop, scanStatus]

/-- Concrete empty-tools scan request. -/
def c10Request : ScanRequest :=
  { target := "example.com", tools := [], scan_id := "s0" }

/-- Witness for C10 at a concrete empty-tools request. -/
theorem c10_empty_tools_success_witness :
    (execute_scan_logic wRunTool c10Request).results = [] ∧
    (execute_scan_logic wRunTool c10Request).status = "success" :=
  c10_empty_tools_success wRunTool c10Request rfl

/-- C3: on exit code 0 the tool-specific post-processor (default when none
is registered) is invoked exactly once; on non-zero exit or timeout the
default post-processor is invoked exactly once; no run invokes more than
one post-processor. -/
theorem c3_postprocessor_dispatch (outcome : RunOutcome)
    (extraFiles command : List String) (scan_id tool_name : String) (timeout : Nat) :
    (execute_command outcome extraFiles command scan_id tool_name timeout).2.length ≤ 1 ∧
    (∀ so se, outcome = .completed 0 so se →
      (execute_command outcome extraFiles command scan_id tool_name timeout).2 =
        [getPostProcessorCall tool_name]) ∧
    (∀ c so se, outcome = .completed c so se → c ≠ 0 →
      (execute_command outcome extraFiles command scan_id tool_name timeout).2 =
        [ProcCall.defaultProc]) ∧
    (outcome = .timedOut →
      (execute_command outcome extraFiles command scan_id tool_name timeout).2 =
        [ProcCall.defaultProc]) := by
  cases outcome with
  | completed c so se =>
    by_cases hc : c = 0 <;>
      simp_all [execute_command]
  | timedOut => simp [execute_command]
  | launchFailure msg => simp [execute_command]

/-- Witness for C3: a successful nuclei run dispatches to the registered
nuclei processor, and a failing run to the default processor. -/
theorem c3_postprocessor_dispatch_witness :
    (execute_command (.completed 0 "" "") [] ["nuclei"] "s1" "nuclei" 3600).2 =
      [getPostProcessorCall "nuclei"] ∧
    (execute_command (.completed 1 "" "") [] ["nuclei"] "s1" "nuclei" 3600).2 =
      [ProcCall.defaultProc] ∧
    (execute_command .timedOut [] ["nuclei"] "s1" "nuclei" 3600).2 =
      [ProcCall.defaultProc] :=
  ⟨(c3_postprocessor_dispatch (.completed 0 "" "") [] ["nuclei"] "s1" "nuclei" 3600).2.1
      "" "" rfl,
   (c3_postprocessor_dispatch (.completed 1 "" "") [] ["nuclei"] "s1" "nuclei" 3600).2.2.1
      1 "" "" rfl (by decide),
   (c3_postprocessor_dispatch .timedOut [] ["nuclei"] "s1" "nuclei" 3600).2.2.2 rfl⟩

/-- C7: `execute_command` never raises: the normal-exit, non-zero-exit,
timeout and launch-failure paths each produce a `ToolOutput`, with return
code -1 and success false in the timeout and launch-failure cases. -/
theorem c7_executor_total (outcome : RunOutcome)
    (extraFiles command : List String) (scan_id tool_name : String) (timeout : Nat) :
    (∀ c so se, outcome = .completed c so se →
      (execute_command outcome extraFiles command scan_id tool_name timeout).1.return_code = c ∧
      (execute_command outcome extraFiles command scan_id tool_name timeout).1.success = (c == 0)) ∧
    (outcome = .timedOut →
      (execute_command outcome extraFiles command scan_id tool_name timeout).1.return_code = -1 ∧
      (execute_command outcome extraFiles command scan_id tool_name timeout).1.success = false) ∧
    (∀ msg, outcome = .launchFailure msg →
      (execute_command outcome extraFiles command scan_id tool_name timeout).1.return_code = -1 ∧
      (execute_command outcome extraFiles command scan_id tool_name timeout).1.success = false) := by
  cases outcome <;> simp [execute_command]

/-- Witness for C7 at the timeout and launch-failure outcomes. -/
theorem c7_executor_total_witness :
    ((execute_command .timedOut [] ["x"] "s1" "t" 3600).1.return_code = -1 ∧
      (execute_command .timedOut [] ["x"] "s1" "t" 3600).1.success = false) ∧
    ((execute_command (.launchFailure "no such file") [] ["x"] "s1" "t" 3600).1.return_code = -1 ∧
      (execute_command (.launchFailure "no such file") [] ["x"] "s1" "t" 3600).1.success = false) :=
  ⟨(c7_executor_total .timedOut [] ["x"] "s1" "t" 3600).2.1 rfl,
   (c7_executor_total (.launchFailure "no such file") [] ["x"] "s1" "t" 3600).2.2
      "no such file" rfl⟩

/-- Discharges the common final block of every processor: cleanup iff all
recorded upload results succeeded. -/
theorem cleanup_split (attempts : List Bool) (fsDel fsKeep : FS) :
    cleanupAllOrNothing
      (if attempts.all id then
        { attempts := attempts, cleanupCalled := true, fs := fsDel }
      else { attempts := attempts, cleanupCalled := false, fs := fsKeep }) := by
  unfold cleanupAllOrNothing
  split <;> simp_all

/-- C1 counterexample input: a sqlmap run whose output directory holds the
captured stdout but no tool-created subdirectory, with every upload
failing. -/
def sqlmapFailStep : ProcStep :=
  post_process_sqlmap (fun _ _ => false) "s1" "sqlmap" "/app/outputs/s1/sqlmap"
    ["/app/outputs/s1/sqlmap/output.stdout"]
    { dirs := ["/app/outputs/s1/sqlmap"], files := ["/app/outputs/s1/sqlmap/output.stdout"] }

/-- C1 is false as stated: in the sqlmap processor's missing-subdirectory
path the stdout upload is attempted and fails, yet the output directory is
deleted anyway — deletion is not equivalent to all attempted uploads
having succeeded. -/
theorem c1_cleanup_iff_counterexample :
    sqlmapFailStep.attempts = [false] ∧
    sqlmapFailStep.cleanupCalled = true ∧
    sqlmapFailStep.fs = { dirs := [], files := [] } ∧
    ¬ cleanupAllOrNothing sqlmapFailStep := by
  refine ⟨by decide, by decide, by decide, by decide⟩

/-- C1 amended: the delete-iff-all-uploads-succeeded invariant holds for
the default processor and for every registered processor except sqlmap;
the sqlmap processor satisfies it only when a tool-created subdirectory is
found, and otherwise force-deletes the directory regardless of the upload
result. -/
theorem c1_amended_cleanup_all_or_nothing
    (upload : String → String → Bool) (lineCount : String → Nat)
    (scan_id tool_name output_dir : String) (output_files : List String) (fs : FS) :
    cleanupAllOrNothing (default_post_processor upload scan_id tool_name output_dir output_files fs) ∧
    cleanupAllOrNothing (post_process_nuclei upload scan_id tool_name output_dir output_files fs) ∧
    cleanupAllOrNothing (post_process_nikto upload scan_id tool_name output_dir output_files fs) ∧
    cleanupAllOrNothing (post_process_trivy upload scan_id tool_name output_dir output_files fs) ∧
    cleanupAllOrNothing (post_process_lynis upload scan_id tool_name output_dir output_files fs) ∧
    cleanupAllOrNothing (post_process_wpscan upload scan_id tool_name output_dir output_files fs) ∧
    cleanupAllOrNothing (post_process_semgrep upload scan_id tool_name output_dir output_files fs) ∧
    cleanupAllOrNothing (post_process_trufflehog upload scan_id tool_name output_dir output_files fs) ∧
    cleanupAllOrNothing (post_process_gitleaks upload scan_id tool_name output_dir output_files fs) ∧
    cleanupAllOrNothing (post_process_yara upload scan_id tool_name output_dir output_files fs) ∧
    cleanupAllOrNothing (post_process_httpx upload lineCount scan_id tool_name output_dir output_files fs) ∧
    (post_process_sqlmap upload scan_id tool_name output_dir output_files fs).cleanupCalled =
      ((firstSubdir fs output_dir).isNone ||
        (post_process_sqlmap upload scan_id tool_name output_dir output_files fs).attempts.all id) := by
  refine ⟨?_, ?_, ?_, ?_, ?_, ?_, ?_, ?_, ?_, ?_, ?_, ?_⟩
  · exact cleanup_split _ _ _
  · exact cleanup_split _ _ _
  · exact cleanup_split _ _ _
  · exact cleanup_split _ _ _
  · exact cleanup_split _ _ _
  · exact cleanup_split _ _ _
  · exact cleanup_split _ _ _
  · exact cleanup_split _ _ _
  · exact cleanup_split _ _ _
  · exact cleanup_split _ _ _
  · simp only [post_process_httpx]
    split
    · exact cleanup_split _ _ _
    · rfl
  · cases h : firstSubdir fs output_dir with
    | none => simp [post_process_sqlmap, h]
    | some sub =>
      simp only [post_process_sqlmap, h, Option.isNone_some, Bool.false_or]
      exact cleanup_split _ _ _

/-- C8 counterexample input: an existing, file-free output directory. -/
def c8FS : FS := { dirs := ["/app/outputs/s1/foo"], files := [] }

/-- C8 counterexample first invocation of the default processor on the
file-free directory. -/
def c8Step : ProcStep :=
  default_post_processor (fun _ _ => true) "s1" "foo" "/app/outputs/s1/foo" [] c8FS

/-- C8 is false as stated: the first invocation attempts no upload and
raises nothing, but it is not a filesystem no-op — all uploads having
(vacuously) succeeded, it deletes the still-existing empty output
directory. -/
theorem c8_idempotence_counterexample :
    c8Step.attempts = [] ∧ c8Step.cleanupCalled = true ∧
    c8Step.fs ≠ c8FS ∧ c8Step.fs = { dirs := [], files := [] } := by
  refine ⟨by decide, by decide, by decide, by decide⟩

/-- `delete_local_directory` only removes entries: a file absent before is
absent after. -/
theorem hasFile_delete_false (d f : String) (fs : FS) (h : fs.hasFile f = false) :
    (delete_local_directory d fs).hasFile f = false := by
  unfold delete_local_directory FS.hasFile at *
  split
  · simp only [List.contains, List.elem_eq_mem, decide_eq_false_iff_not] at *
    intro hm
    exact h (List.mem_of_mem_filter hm)
  · exact h

/-- After `delete_local_directory d`, the directory `d` no longer exists. -/
theorem delete_dirs_not_contains (d : String) (fs : FS) :
    (delete_local_directory d fs).dirs.contains d = false := by
  unfold delete_local_directory
  split
  · simp only [List.contains, List.elem_eq_mem, decide_eq_false_iff_not]
    intro hm
    have := (List.mem_filter.mp hm).2
    simp at this
  · rename_i hc
    simpa using hc

/-- Deleting a directory that does not exist leaves the filesystem
unchanged (the `os.path.isdir` guard in `delete_local_directory`). -/
theorem delete_noop (d : String) (fs : FS) (h : fs.dirs.contains d = false) :
    delete_local_directory d fs = fs := by
  unfold delete_local_directory
  rw [h]
  simp

/-- C8 amended: running the default post-processor twice on an output
directory none of whose listed files exist attempts no upload on either
occasion and never raises; however the first invocation is not a
filesystem no-op in general — it performs cleanup, deleting the output
directory when it exists — after which the second invocation leaves the
filesystem unchanged.  When the directory did not exist to begin with,
both invocations are complete no-ops. -/
theorem c8_amended_double_run (upload : String → String → Bool)
    (scan_id tool_name output_dir : String) (output_files : List String) (fs : FS)
    (h : ∀ f ∈ output_files, fs.hasFile f = false) :
    (default_post_processor upload scan_id tool_name output_dir output_files fs).attempts = [] ∧
    (default_post_processor upload scan_id tool_name output_dir output_files fs).fs =
      delete_local_directory output_dir fs ∧
    (default_post_processor upload scan_id tool_name output_dir output_files
      (default_post_processor upload scan_id tool_name output_dir output_files fs).fs).attempts
      = [] ∧
    (default_post_processor upload scan_id tool_name output_dir output_files
      (default_post_processor upload scan_id tool_name output_dir output_files fs).fs).fs =
      (default_post_processor upload scan_id tool_name output_dir output_files fs).fs ∧
    (fs.dirs.contains output_dir = false →
      (default_post_processor upload scan_id tool_name output_dir output_files fs).fs = fs) := by
  have hat : ∀ gs : FS, (∀ f ∈ output_files, gs.hasFile f = false) →
      (output_files.filterMap (fun f =>
        if gs.hasFile f then
          some (upload f (gcsBase scan_id tool_name ++ "review/" ++ baseName f))
        else none)) = [] := by
    intro gs hgs
    refine List.filterMap_eq_nil.mpr (fun a ha => ?_)
    simp [hgs a ha]
  have h1 : default_post_processor upload scan_id tool_name output_dir output_files fs =
      { attempts := [], cleanupCalled := true,
        fs := delete_local_directory output_dir fs } := by
    simp only [default_post_processor]
    rw [hat fs h]
    rfl
  have h2 : ∀ f ∈ output_files,
      (delete_local_directory output_dir fs).hasFile f = false :=
    fun f hf => hasFile_delete_false output_dir f fs (h f hf)
  have h3 : default_post_processor upload scan_id tool_name output_dir output_files
      (delete_local_directory output_dir fs) =
      { attempts := [], cleanupCalled := true,
        fs := delete_local_directory output_dir (delete_local_directory output_dir fs) } := by
    simp only [default_post_processor]
    rw [hat _ h2]
    rfl
  have h4 : delete_local_directory output_dir (delete_local_directory output_dir fs) =
      delete_local_directory output_dir fs :=
    delete_noop _ _ (delete_dirs_not_contains output_dir fs)
  refine ⟨by rw [h1], by rw [h1], ?_, ?_, fun hd => by rw [h1]; exact delete_noop _ _ hd⟩
  · rw [h1]
    simp only [h3]
  · rw [h1]
    simp only [h3, h4]

/-- Witness for C8 amended: concrete double run on an existing empty
output directory. -/
theorem c8_amended_double_run_witness :
    c8Step.attempts = [] ∧
    c8Step.fs = delete_local_directory "/app/outputs/s1/foo" c8FS ∧
    (default_post_processor (fun _ _ => true) "s1" "foo" "/app/outputs/s1/foo" [] c8Step.fs).attempts = [] ∧
    (default_post_processor (fun _ _ => true) "s1" "foo" "/app/outputs/s1/foo" [] c8Step.fs).fs = c8Step.fs ∧
    (c8FS.dirs.contains "/app/outputs/s1/foo" = false → c8Step.fs = c8FS) := by
  have h := c8_amended_double_run (fun _ _ => true) "s1" "foo" "/app/outputs/s1/foo" [] c8FS
    (by intro f hf; simp at hf)
  exact h

/-- A user parameter carrying nuclei's backend-managed output flag. -/
def nucleiOverrideParam : ToolParameter :=
  { flag := "-o", value := some (.str "evil"), requiresValue := true }

/-- C4 is false as stated: the nuclei builder does not exclude the
backend-managed `-o` flag from user parameter processing — a user
parameter with flag `-o` is emitted after the backend-managed pair, so
the user value appears in the argument vector (and, coming last, would be
the one the tool honours). -/
theorem c4_reserved_flag_counterexample :
    build_nuclei_command "t" [nucleiOverrideParam] "s1" "nuclei" =
      ["nuclei", "-u", "t", "-no-color", "-stats", "-jsonl", "-o",
       "/app/outputs/s1/nuclei/nuclei_results.json", "-t", "/root/nuclei-templates",
       "-o", "evil"] ∧
    "evil" ∈ build_nuclei_command "t" [nucleiOverrideParam] "s1" "nuclei" := by
  refine ⟨by decide, by decide⟩

/-- Dropping reserved-flag parameters does not change what `reservedEmit`
emits over a list. -/
theorem concatBy_reservedEmit_filter (reserved : List String) (l : List ToolParameter) :
    concatBy (reservedEmit reserved) (l.filter (fun p => !(reserved.contains p.flag))) =
      concatBy (reservedEmit reserved) l := by
  induction l with
  | nil => rfl
  | cons p t ih =>
    rw [List.filter_cons]
    by_cases h : reserved.contains p.flag = true
    · have he : reservedEmit reserved p = [] := by
        unfold reservedEmit
        rw [h]
        split <;> rfl
      rw [h]
      simp only [Bool.not_true]
      rw [if_neg (by simp)]
      simp only [concatBy, he, List.nil_append]
      exact ih
    · have hb : reserved.contains p.flag = false := by
        rwa [Bool.not_eq_true] at h
      rw [hb]
      simp only [Bool.not_false]
      rw [if_pos trivial]
      simp only [concatBy]
      rw [ih]

/-- C4 amended: only the nikto and sqlmap builders exclude their
backend-managed flag names from user parameter processing (dropping such
parameters leaves their emitted command unchanged); the nuclei, trivy and
wpscan builders do not exclude reserved flag names — for every override
value, a user parameter whose flag collides with the backend-managed
output flag (`-o` for nuclei and trivy, `--output` for wpscan) is emitted
again after the backend-managed flag and path. -/
theorem c4_amended_reserved_flags (target : String) (parameters : List ToolParameter)
    (scan_id tool_name v : String) :
    build_nikto_command target
        (parameters.filter (fun p => !(["-h", "-o", "-Format"].contains p.flag)))
        scan_id tool_name
      = build_nikto_command target parameters scan_id tool_name ∧
    build_sqlmap_command target
        (parameters.filter (fun p => !(["-u", "--output-dir", "--batch"].contains p.flag)))
        scan_id tool_name
      = build_sqlmap_command target parameters scan_id tool_name ∧
    build_nuclei_command target
        [{ flag := "-o", value := some (.str v), requiresValue := true }] scan_id "nuclei"
      = ["nuclei", "-u", target, "-no-color", "-stats", "-jsonl",
         "-o", outputDirOf scan_id "nuclei" ++ "/nuclei_results.json",
         "-t", "/root/nuclei-templates", "-o", v] ∧
    build_trivy_command target
        [{ flag := "imageName", value := some (.str "nginx:latest"), requiresValue := true },
         { flag := "-o", value := some (.str v), requiresValue := true }] scan_id "trivy"
      = Except.ok ["trivy", "image", "--format", "json",
          "-o", outputDirOf scan_id "trivy" ++ "/trivy_results.json", "nginx:latest",
          "-o", v] ∧
    build_wpscan_command target
        [{ flag := "--output", value := some (.str v), requiresValue := true }] scan_id "wpscan"
      = ["wpscan", "--url",
         (if strStartsWith "http://" (strToLower target) ||
             strStartsWith "https://" (strToLower target) then target
          else "http://" ++ target),
         "--format", "json", "--output",
         outputDirOf scan_id "wpscan" ++ "/wpscan_results.json", "--no-update",
         "--output", v] := by
  refine ⟨?_, ?_, rfl, rfl, rfl⟩
  · simp only [build_nikto_command]
    rw [concatBy_reservedEmit_filter]
  · simp only [build_sqlmap_command]
    rw [concatBy_reservedEmit_filter]

/-- A clone oracle for concrete builder evaluations: every clone succeeds. -/
def wGitEnv : GitEnv := ⟨fun _ => true, fun _ => ""⟩

/-- C5 is false as stated: with the distinguished repository-URL parameter
absent, the semgrep builder does not fail with an exception; it returns
normally with the synthetic "print error and exit 1" command (the same
holds for trufflehog, gitleaks and yara, whose builders likewise return
`List String` and cannot raise `MissingRequiredParameter`). -/
theorem c5_missing_param_counterexample :
    build_semgrep_command wGitEnv "example.com" [] "s1" "semgrep" =
      syntheticFailCommand ("Semgrep scan requires a " ++ squo ++ "gitURL" ++ squo
        ++ " parameter with a valid git repository URL.") := by
  rfl

/-- C5 amended: for each clone-then-scan tool, when the distinguished
repository-URL parameter is absent or its value is not a string, the
builder returns the tool's synthetic failing command (echo the error to
stderr and exit 1) instead of raising. -/
theorem c5_amended_missing_param (env : GitEnv) (target : String)
    (parameters : List ToolParameter) (scan_id tool_name : String) :
    (hasStringParam "gitURL" parameters = false →
      build_semgrep_command env target parameters scan_id tool_name =
        syntheticFailCommand ("Semgrep scan requires a " ++ squo ++ "gitURL" ++ squo
          ++ " parameter with a valid git repository URL.")) ∧
    (hasStringParam "repoURL" parameters = false →
      build_trufflehog_command env target parameters scan_id tool_name =
        syntheticFailCommand ("Trufflehog scan requires a " ++ squo ++ "repoURL" ++ squo
          ++ " parameter with a valid Git repository URL.")) ∧
    (hasStringParam "repoURL" parameters = false →
      build_gitleaks_command env target parameters scan_id tool_name =
        syntheticFailCommand "Gitleaks scan requires a repoURL parameter.") ∧
    (hasStringParam "repoURL" parameters = false →
      build_yara_command env target parameters scan_id tool_name =
        syntheticFailCommand "Yara scan requires a repoURL parameter") := by
  refine ⟨?_, ?_, ?_, ?_⟩ <;> intro h
  · unfold build_semgrep_command
    cases hf : findParam "gitURL" parameters with
    | none => simp [hf]
    | some p =>
      cases hv : p.value with
      | none => simp [hf, hv]
      | some v =>
        cases v with
        | str s => simp [hasStringParam, hf, hv] at h
        | bool b => simp [hf, hv]
        | list l => simp [hf, hv]
  · unfold build_trufflehog_command
    cases hf : findParam "repoURL" parameters with
    | none => simp [hf]
    | some p =>
      cases hv : p.value with
      | none => simp [hf, hv]
      | some v =>
        cases v with
        | str s => simp [hasStringParam, hf, hv] at h
        | bool b => simp [hf, hv]
        | list l => simp [hf, hv]
  · unfold build_gitleaks_command
    cases hf : findParam "repoURL" parameters with
    | none => simp [hf]
    | some p =>
      cases hv : p.value with
      | none => simp [hf, hv]
      | some v =>
        cases v with
        | str s => simp [hasStringParam, hf, hv] at h
        | bool b => simp [hf, hv]
        | list l => simp [hf, hv]
  · unfold build_yara_command
    cases hf : findParam "repoURL" parameters with
    | none => simp [hf]
    | some p =>
      cases hv : p.value with
      | none => simp [hf, hv]
      | some v =>
        cases v with
        | str s => simp [hasStringParam, hf, hv] at h
        | bool b => simp [hf, hv]
        | list l => simp [hf, hv]

/-- Witness for C5 amended at empty parameter lists. -/
theorem c5_amended_missing_param_witness :
    build_trufflehog_command wGitEnv "example.com" [] "s1" "trufflehog" =
      syntheticFailCommand ("Trufflehog scan requires a " ++ squo ++ "repoURL" ++ squo
        ++ " parameter with a valid Git repository URL.") ∧
    build_gitleaks_command wGitEnv "example.com" [] "s1" "gitleaks" =
      syntheticFailCommand "Gitleaks scan requires a repoURL parameter." ∧
    build_yara_command wGitEnv "example.com" [] "s1" "yara" =
      syntheticFailCommand "Yara scan requires a repoURL parameter" := by
  have h := c5_amended_missing_param wGitEnv "example.com" [] "s1" "trufflehog"
  have h2 := c5_amended_missing_param wGitEnv "example.com" [] "s1" "gitleaks"
  have h3 := c5_amended_missing_param wGitEnv "example.com" [] "s1" "yara"
  exact ⟨h.2.1 (by decide), h2.2.2.1 (by decide), h3.2.2.2 (by decide)⟩

/-- C6 is false as stated: the trivy builder raises (`ValueError`,
modelled as `Except.error`) on an empty parameter list, because the
required `imageName` parameter is absent. -/
theorem c6_empty_params_counterexample :
    build_trivy_command "example.com" [] "s1" "trivy" =
      Except.error ("Trivy scan requires " ++ squo ++ "imageName" ++ squo ++ " parameter.") := by
  rfl

/-- C6 amended: every registered builder except trivy returns without
raising on an empty parameter list — the JSON-output and local-audit
builders return their argument vector with all mandatory backend-managed
flags, and the clone-then-scan builders return their synthetic failing
command (their required repository parameter being absent); trivy raises.
The first conjunct fixes the registry contents this enumeration covers. -/
theorem c6_amended_empty_params (env : GitEnv) (target scan_id : String) :
    toolRegistry.map Prod.fst =
      ["nuclei", "nikto", "sqlmap", "trivy", "lynis", "wpscan", "semgrep",
       "trufflehog", "gitleaks", "yara", "httpx"] ∧
    build_nuclei_command target [] scan_id "nuclei" =
      ["nuclei", "-u", target, "-no-color", "-stats", "-jsonl",
       "-o", outputDirOf scan_id "nuclei" ++ "/nuclei_results.json",
       "-t", "/root/nuclei-templates"] ∧
    build_nikto_command target [] scan_id "nikto" =
      ["perl", "/opt/nikto/program/nikto.pl", "-h", target, "-Format", "json",
       "-o", outputDirOf scan_id "nikto" ++ "/nikto_results.json"] ∧
    build_sqlmap_command target [] scan_id "sqlmap" =
      ["sqlmap", "-u", target, "--batch", "--output-dir",
       outputDirOf scan_id "sqlmap" ++ "/"] ∧
    build_lynis_command target [] scan_id "lynis" =
      ["lynis", "audit", "system", "--cronjob",
       "--logfile", outputDirOf scan_id "lynis" ++ "/lynis.log",
       "--report-file", outputDirOf scan_id "lynis" ++ "/lynis-report.dat"] ∧
    build_wpscan_command target [] scan_id "wpscan" =
      ["wpscan", "--url",
       (if strStartsWith "http://" (strToLower target) ||
           strStartsWith "https://" (strToLower target) then target
        else "http://" ++ target),
       "--format", "json", "--output",
       outputDirOf scan_id "wpscan" ++ "/wpscan_results.json", "--no-update"] ∧
    build_httpx_command target [] scan_id "httpx" =
      ["sh", "-c", "echo " ++ shlexQuote target ++ " | "
        ++ String.intercalate " " ["httpx", normalizedHttpxTarget target]] ∧
    build_semgrep_command env target [] scan_id "semgrep" =
      syntheticFailCommand ("Semgrep scan requires a " ++ squo ++ "gitURL" ++ squo
        ++ " parameter with a valid git repository URL.") ∧
    build_trufflehog_command env target [] scan_id "trufflehog" =
      syntheticFailCommand ("Trufflehog scan requires a " ++ squo ++ "repoURL" ++ squo
        ++ " parameter with a valid Git repository URL.") ∧
    build_gitleaks_command env target [] scan_id "gitleaks" =
      syntheticFailCommand "Gitleaks scan requires a repoURL parameter." ∧
    build_yara_command env target [] scan_id "yara" =
      syntheticFailCommand "Yara scan requires a repoURL parameter" := by
  refine ⟨rfl, rfl, rfl, rfl, rfl, rfl, rfl, rfl, rfl, rfl, rfl⟩

/-- C9 is false as stated: for the target "a b" the httpx builder's shell
string contains two occurrences of the target but only one occurrence of
its shell-quoted form — the protocol-normalised copy appended at the end
of the inner command is not escaped. -/
theorem c9_escaping_counterexample :
    build_httpx_command "a b" [] "s1" "httpx" =
      ["sh", "-c", "echo " ++ squo ++ "a b" ++ squo ++ " | httpx http://a b"] ∧
    shlexQuote "a b" = squo ++ "a b" ++ squo ∧
    occurCount "a b" ("echo " ++ squo ++ "a b" ++ squo ++ " | httpx http://a b") = 2 ∧
    occurCount (shlexQuote "a b") ("echo " ++ squo ++ "a b" ++ squo ++ " | httpx http://a b") = 1 := by
  refine ⟨by decide, by decide, by decide, by decide⟩

/-- C9 amended: the httpx builder always returns a command of the form
`sh -c "echo <target> | <inner>"` with the echoed target shell-escaped via
`shlexQuote`; however the inner command's final argument is the
protocol-normalised target joined in verbatim, without escaping. -/
theorem c9_amended_httpx_shape (target : String) (parameters : List ToolParameter)
    (scan_id tool_name : String) :
    build_httpx_command target parameters scan_id tool_name =
      ["sh", "-c", "echo " ++ shlexQuote target ++ " | "
        ++ String.intercalate " " (httpxInner target parameters)] ∧
    (httpxInner target parameters).getLast? = some (normalizedHttpxTarget target) ∧
    (httpxInner target parameters).head? = some "httpx" := by
  refine ⟨rfl, ?_, rfl⟩
  simp only [httpxInner]
  rw [List.getLast?_concat]
